import Mathlib

/-!
Shallow embedding of the prompt-comercial frontend (src/frontend/src), the
production-template editor of a multi-scene commercial-video generator.
The embedded units are the pure cores of the React handlers in
`FrameUploader.jsx` (the `TemplateEditor` component bundled in the same file),
`ContinuityValidator.jsx`, and `Dashboard.jsx`; browser state updates are
modelled as explicit state passing, and the HTTP calls the handlers make are
modelled by passing the observable response as an argument and recording the
emitted request in the result.
-/

namespace PromptComercial

/-- A tracked visual element of an analyzed frame: a type tag plus a free-text
description (the objects of `tracked_elements` exchanged with the backend). -/
structure TrackedElement where
  type : String
  description : String
deriving DecidableEq, Repr

/-- The frame-analysis object returned by `POST /api/prompts/analyze-frame`
and consumed by `FrameUploader` and `TemplateEditor`; fields the backend may
omit are `Option`s (JavaScript `undefined`). -/
structure FrameAnalysis where
  subject_position : Option String
  camera_angle : Option String
  lighting : Option String
  mood : Option String
  colors : List String
  tracked_elements : List TrackedElement
  video_prompt : Option String
  next_scene_suggestion : Option String
deriving DecidableEq, Repr

/-- Character-list version of JavaScript `String.startsWith`. -/
def startsWithChars : List Char → List Char → Bool
  | [], _ => true
  | _ :: _, [] => false
  | p :: ps, c :: cs => p == c && startsWithChars ps cs

/-- Character-list version of JavaScript substring containment. -/
def containsChars (pat : List Char) : List Char → Bool
  | [] => startsWithChars pat []
  | c :: cs => startsWithChars pat (c :: cs) || containsChars pat cs

/-- JavaScript `s.includes(pat)`: substring containment on strings. -/
def jsIncludes (s pat : String) : Bool :=
  containsChars pat.data s.data

/-- Embeds the scene-index greater-or-equal-1 branch of the
`onAnalysisComplete` handler that `TemplateEditor` passes to `FrameUploader`
(FrameUploader.jsx): given the continuity suggestion text and the current
prompt of the scene, it prepends the bracketed continuity marker unless the
suggestion is empty or the prompt already contains the literal substring
`[CONTINUITY]`. -/
def continuityPrefixStep (continuityContext currentPrompt : String) : String :=
  if continuityContext ≠ "" ∧ jsIncludes currentPrompt "[CONTINUITY]" = false then
    "[CONTINUITY: " ++ continuityContext ++ "] " ++ currentPrompt
  else currentPrompt

/-- Embeds the prompt-routing part of the `onAnalysisComplete` handler in
`TemplateEditor` (FrameUploader.jsx): for scene index 0 the analysis
`video_prompt` (when nonempty) replaces the scene prompt; for any later scene
the `next_scene_suggestion` is run through `continuityPrefixStep`. -/
def onAnalysisCompletePrompt (index : Nat) (analysis : FrameAnalysis)
    (currentPrompt : String) : String :=
  if index = 0 then
    let videoPrompt := analysis.video_prompt.getD ""
    if videoPrompt ≠ "" then videoPrompt else currentPrompt
  else
    continuityPrefixStep (analysis.next_scene_suggestion.getD "") currentPrompt

/-- Claim C1: the continuity-prefix step is claimed idempotent, but the code
is not: the guard tests the literal substring `[CONTINUITY]` while the marker
it injects has the shape `[CONTINUITY: ...]`, so a prompt that already carries
a marker is prefixed again. Evaluated at the failing input (suggestion `x`,
prompt `walk`): one application yields the marked prompt, a second application
duplicates the marker instead of leaving the prompt unchanged. -/
theorem continuityPrefixStep_not_idempotent :
    continuityPrefixStep "x" "walk" = "[CONTINUITY: x] walk"
  ∧ continuityPrefixStep "x" (continuityPrefixStep "x" "walk")
      = "[CONTINUITY: x] [CONTINUITY: x] walk" := by decide

/-- Claim C4: frame-analysis results are routed by scene position: for scene 0
a nonempty `video_prompt` replaces the prompt entirely; for every scene of
index at least 1 the existing prompt is always retained as a suffix (the
suggestion is never a full replacement), and in the unguarded case the
`next_scene_suggestion` is prepended as the bracketed continuity marker. -/
theorem onAnalysisCompletePrompt_routing :
    (∀ (a : FrameAnalysis) (p : String), a.video_prompt.getD "" ≠ "" →
        onAnalysisCompletePrompt 0 a p = a.video_prompt.getD "")
  ∧ (∀ (index : Nat) (a : FrameAnalysis) (p : String), 1 ≤ index →
        ∃ pre : String, onAnalysisCompletePrompt index a p = pre ++ p)
  ∧ (∀ (index : Nat) (a : FrameAnalysis) (p : String), 1 ≤ index →
        a.next_scene_suggestion.getD "" ≠ "" →
        jsIncludes p "[CONTINUITY]" = false →
        onAnalysisCompletePrompt index a p
          = "[CONTINUITY: " ++ a.next_scene_suggestion.getD "" ++ "] " ++ p) := by
  refine ⟨?_, ?_, ?_⟩
  · intro a p h
    simp [onAnalysisCompletePrompt, h]
  · intro index a p h
    have hne : index ≠ 0 := by omega
    simp only [onAnalysisCompletePrompt, if_neg hne, continuityPrefixStep]
    by_cases hc : a.next_scene_suggestion.getD "" ≠ "" ∧ jsIncludes p "[CONTINUITY]" = false
    · rw [if_pos hc]
      exact ⟨"[CONTINUITY: " ++ a.next_scene_suggestion.getD "" ++ "] ",
        by simp [String.append_assoc]⟩
    · rw [if_neg hc]
      exact ⟨"", by simp⟩
  · intro index a p h h1 h2
    have hne : index ≠ 0 := by omega
    simp only [onAnalysisCompletePrompt, if_neg hne, continuityPrefixStep]
    rw [if_pos ⟨h1, h2⟩]

/-- Concrete instance of the claim C4 theorem: a scene-0 analysis with
generated prompt `vp` replaces the prior prompt `old`. -/
theorem onAnalysisCompletePrompt_routing_witness :
    onAnalysisCompletePrompt 0
      { subject_position := none, camera_angle := none, lighting := none,
        mood := none, colors := [], tracked_elements := [],
        video_prompt := some "vp", next_scene_suggestion := none } "old" = "vp" :=
  onAnalysisCompletePrompt_routing.1
    { subject_position := none, camera_angle := none, lighting := none,
      mood := none, colors := [], tracked_elements := [],
      video_prompt := some "vp", next_scene_suggestion := none } "old" (by decide)

/-- Severity tag of a continuity warning. -/
inductive Severity
  | high
  | medium
  | low
deriving DecidableEq, Repr

/-- One warning of a continuity report: severity, target element type, and a
message. -/
structure ContinuityWarning where
  severity : Severity
  element : String
  message : String
deriving DecidableEq, Repr

/-- The continuity report exchanged with `POST /api/continuity/validate` and
rendered by the `ContinuityValidator` component. -/
structure ContinuityReport where
  is_valid : Bool
  warnings : List ContinuityWarning
  suggestions : List String
deriving DecidableEq, Repr

/-- Modelled from the spec: the comparison behind `POST
/api/continuity/validate` is backend code that is not among the frontend
sources; per the spec, for each tracked element of the previous scene it looks
for a current element of the same type — a missing correspondence yields a
HIGH warning, a significantly drifted description (the implementation-defined
similarity test is the parameter `drifts`) yields a MEDIUM warning; `is_valid`
holds iff no HIGH warning exists, and each HIGH warning carries a remediation
suggestion. -/
def validateContinuity (drifts : String → String → Bool)
    (previousElements currentElements : List TrackedElement) : ContinuityReport :=
  let warnings := previousElements.filterMap (fun e =>
    match currentElements.find? (fun c => c.type == e.type) with
    | none => some { severity := Severity.high, element := e.type,
                     message := "element absent in current scene" }
    | some c =>
        if drifts e.description c.description then
          some { severity := Severity.medium, element := e.type,
                 message := "element description drifts in current scene" }
        else none)
  { is_valid := warnings.all (fun w => w.severity != Severity.high),
    warnings := warnings,
    suggestions := warnings.filterMap (fun w =>
      if w.severity = Severity.high then
        some ("reintroduce element " ++ w.element ++ " with consistent description")
      else none) }

/-- Claim C3: every previous element type absent from the current scene yields
a HIGH warning for that type; `is_valid` holds iff no HIGH warning exists; the
singleton bottle versus empty instance yields invalid with exactly the one
HIGH bottle warning; and identical element lists (under a drift test that does
not flag same-typed elements of the list against each other) yield a valid
report with no warnings. -/
theorem validateContinuity_spec :
    (∀ (drifts : String → String → Bool) (prev cur : List TrackedElement)
        (e : TrackedElement), e ∈ prev → (∀ c ∈ cur, c.type ≠ e.type) →
        ∃ w ∈ (validateContinuity drifts prev cur).warnings,
          w.severity = Severity.high ∧ w.element = e.type)
  ∧ (∀ (drifts : String → String → Bool) (prev cur : List TrackedElement),
        (validateContinuity drifts prev cur).is_valid = true ↔
          ∀ w ∈ (validateContinuity drifts prev cur).warnings, w.severity ≠ Severity.high)
  ∧ (validateContinuity (fun _ _ => false)
        [{ type := "bottle", description := "black perfume bottle in hand" }] []
      = { is_valid := false,
          warnings := [{ severity := Severity.high, element := "bottle",
                         message := "element absent in current scene" }],
          suggestions := ["reintroduce element bottle with consistent description"] })
  ∧ (∀ (drifts : String → String → Bool) (prev : List TrackedElement),
        (∀ e ∈ prev, ∀ c ∈ prev, c.type = e.type → drifts e.description c.description = false) →
        validateContinuity drifts prev prev
          = { is_valid := true, warnings := [], suggestions := [] }) := by
  refine ⟨?_, ?_, by decide, ?_⟩
  · intro drifts prev cur e he habsent
    have hfind : cur.find? (fun c => c.type == e.type) = none := by
      rw [List.find?_eq_none]
      intro c hc
      simp only [beq_iff_eq]
      exact habsent c hc
    refine ⟨{ severity := Severity.high, element := e.type,
              message := "element absent in current scene" }, ?_, rfl, rfl⟩
    simp only [validateContinuity, List.mem_filterMap]
    exact ⟨e, he, by rw [hfind]⟩
  · intro drifts prev cur
    simp only [validateContinuity, List.all_eq_true, bne_iff_ne]
  · intro drifts prev hdr
    have hw : prev.filterMap (fun e =>
        match prev.find? (fun c => c.type == e.type) with
        | none => some { severity := Severity.high, element := e.type,
                         message := "element absent in current scene" }
        | some c =>
            if drifts e.description c.description then
              some ({ severity := Severity.medium, element := e.type,
                      message := "element description drifts in current scene" } : ContinuityWarning)
            else none) = [] := by
      rw [List.filterMap_eq_nil_iff]
      intro e he
      have hsome : (prev.find? (fun c => c.type == e.type)).isSome := by
        rw [List.find?_isSome]
        exact ⟨e, he, by simp⟩
      obtain ⟨c, hc⟩ := Option.isSome_iff_exists.mp hsome
      have hcmem : c ∈ prev := List.mem_of_find?_eq_some hc
      have hctype : c.type = e.type := by
        have := List.find?_some hc
        simpa using this
      rw [hc]
      simp [hdr e he c hcmem hctype]
    simp only [validateContinuity]
    rw [hw]
    rfl

/-- Concrete instance of the claim C3 theorem: identical singleton element
lists validate with no warnings. -/
theorem validateContinuity_spec_witness :
    validateContinuity (fun _ _ => false)
        [{ type := "bottle", description := "b" }] [{ type := "bottle", description := "b" }]
      = { is_valid := true, warnings := [], suggestions := [] } :=
  validateContinuity_spec.2.2.2 (fun _ _ => false)
    [{ type := "bottle", description := "b" }]
    (fun _ _ _ _ _ => rfl)

/-- An HTTP request emitted by the frontend continuity validation: target URL
and the JSON body fields. -/
structure ValidateRequest where
  url : String
  previous_elements : List TrackedElement
  current_elements : List TrackedElement
deriving DecidableEq, Repr

/-- Observable outcome of the validation fetch: a parsed response body, or a
thrown network or parse error (caught and logged by the component). -/
inductive ValidateFetchOutcome
  | ok (report : ContinuityReport)
  | thrown
deriving DecidableEq, Repr

/-- Embeds `validateContinuity` of the `ContinuityValidator` component
(ContinuityValidator.jsx): when either element-list prop is absent it returns
early; otherwise it POSTs both lists to the backend validation endpoint and
stores the parsed response as the displayed validation. The result pairs the
list of external HTTP requests performed with the stored validation state. -/
def frontendValidateContinuity
    (previousElements currentElements : Option (List TrackedElement))
    (outcome : ValidateFetchOutcome) :
    List ValidateRequest × Option ContinuityReport :=
  match previousElements, currentElements with
  | some prev, some cur =>
      ([{ url := "http://localhost:8003/api/continuity/validate",
          previous_elements := prev, current_elements := cur }],
       match outcome with
       | ValidateFetchOutcome.ok r => some r
       | ValidateFetchOutcome.thrown => none)
  | some _, none => ([], none)
  | none, some _ => ([], none)
  | none, none => ([], none)

/-- Claim C2 counterexample: the frontend Continuity Validator is not a pure
side-effect-free function of its two element lists — on a concrete input pair
it performs an external HTTP call (the emitted request list is nonempty), and
the validation it produces differs between two runs on the same element lists
that observe different service responses. -/
theorem frontendValidateContinuity_impure :
    (frontendValidateContinuity
        (some [{ type := "bottle", description := "black perfume bottle in hand" }])
        (some [])
        (ValidateFetchOutcome.ok { is_valid := true, warnings := [], suggestions := [] })).1
      ≠ []
  ∧ (frontendValidateContinuity
        (some [{ type := "bottle", description := "black perfume bottle in hand" }])
        (some [])
        (ValidateFetchOutcome.ok { is_valid := true, warnings := [], suggestions := [] })).2
      ≠ (frontendValidateContinuity
        (some [{ type := "bottle", description := "black perfume bottle in hand" }])
        (some [])
        (ValidateFetchOutcome.ok { is_valid := false, warnings := [], suggestions := [] })).2 := by
  decide

/-- Claim C2 as amended: the frontend Continuity Validator delegates to the
backend — whenever both element-list props are present it performs exactly one
POST of the two lists to the backend validation endpoint and stores the parsed
service response verbatim, and when either prop is absent it performs no call
and stores nothing; its output is a function of the inputs together with the
service response, not of the element lists alone. -/
theorem frontendValidateContinuity_delegates :
    (∀ (prev cur : List TrackedElement) (outcome : ValidateFetchOutcome),
        (frontendValidateContinuity (some prev) (some cur) outcome).1
          = [{ url := "http://localhost:8003/api/continuity/validate",
               previous_elements := prev, current_elements := cur }])
  ∧ (∀ (prev cur : List TrackedElement) (r : ContinuityReport),
        (frontendValidateContinuity (some prev) (some cur) (ValidateFetchOutcome.ok r)).2 = some r)
  ∧ (∀ (pe ce : Option (List TrackedElement)) (outcome : ValidateFetchOutcome),
        pe = none ∨ ce = none →
        frontendValidateContinuity pe ce outcome = ([], none)) := by
  refine ⟨fun prev cur outcome => rfl, fun prev cur r => rfl, ?_⟩
  intro pe ce outcome h
  rcases h with h | h
  · subst h
    cases ce <;> rfl
  · subst h
    cases pe <;> rfl

/-- Concrete instance of the claim C2 amended theorem: with the previous
element list absent, no request is emitted and nothing is stored. -/
theorem frontendValidateContinuity_delegates_witness :
    frontendValidateContinuity none (some []) ValidateFetchOutcome.thrown = ([], none) :=
  frontendValidateContinuity_delegates.2.2 none (some []) ValidateFetchOutcome.thrown (Or.inl rfl)

/-- A scene row of the template being edited in `TemplateEditor`; fields the
editor may never have set are `Option`s (JavaScript `undefined`). -/
structure EditorScene where
  scene_id : Nat
  name : String
  duration : Rat
  prompt : String
  dialogue : Option String
  emotion : String
  voice_gender : Option String
  camera_movement : String
  lighting : String
  reference_images : List String
deriving DecidableEq, Repr

/-- Embeds `addScene` of `TemplateEditor` (FrameUploader.jsx): appends a fresh
scene whose `scene_id` is the current length and whose defaults are those of
the handler. -/
def addScene (scenes : List EditorScene) : List EditorScene :=
  scenes ++ [{ scene_id := scenes.length,
               name := "Scene " ++ toString (scenes.length + 1),
               duration := 15 / 2,
               prompt := "",
               dialogue := none,
               emotion := "neutral",
               voice_gender := none,
               camera_movement := "static",
               lighting := "natural",
               reference_images := [] }]

/-- The renumbering loop inside `removeScene`: every remaining scene gets
`scene_id := position` and the matching display name. -/
def renumberScenes : Nat → List EditorScene → List EditorScene
  | _, [] => []
  | i, s :: rest =>
      { s with scene_id := i, name := "Scene " ++ toString (i + 1) } :: renumberScenes (i + 1) rest

/-- Embeds `removeScene` of `TemplateEditor` (FrameUploader.jsx): drops the
scene at the given position (the filter on list index) and renumbers the
remaining scenes. -/
def removeScene (scenes : List EditorScene) (index : Nat) : List EditorScene :=
  renumberScenes 0 (scenes.eraseIdx index)

/-- The scene-ordinal invariant: every scene stores its own list position as
`scene_id` — ordinals are exactly 0..n-1 in order, without duplicates or
gaps. -/
def ordinalsContiguous (scenes : List EditorScene) : Prop :=
  ∀ (i : Nat) (s : EditorScene), scenes[i]? = some s → s.scene_id = i

/-- A scene-list editing operation of `TemplateEditor`. -/
inductive EditorOp
  | add
  | remove (index : Nat)
deriving DecidableEq, Repr

/-- Runs one editing operation on the scene list. -/
def applyOp (scenes : List EditorScene) : EditorOp → List EditorScene
  | EditorOp.add => addScene scenes
  | EditorOp.remove index => removeScene scenes index

/-- Runs a sequence of editing operations on the initial empty template. -/
def runOps (ops : List EditorOp) : List EditorScene :=
  List.foldl applyOp [] ops

theorem renumberScenes_scene_id (l : List EditorScene) :
    ∀ (k i : Nat) (s : EditorScene), (renumberScenes k l)[i]? = some s → s.scene_id = k + i := by
  induction l with
  | nil =>
      intro k i s h
      simp [renumberScenes] at h
  | cons hd tl ih =>
      intro k i s h
      cases i with
      | zero =>
          simp only [renumberScenes, List.getElem?_cons_zero, Option.some.injEq] at h
          rw [← h]
          show k = k + 0
          omega
      | succ i =>
          simp only [renumberScenes, List.getElem?_cons_succ] at h
          have := ih (k + 1) i s h
          omega

theorem removeScene_contiguous (scenes : List EditorScene) (index : Nat) :
    ordinalsContiguous (removeScene scenes index) := by
  intro i s h
  have := renumberScenes_scene_id (scenes.eraseIdx index) 0 i s h
  omega

theorem addScene_contiguous {scenes : List EditorScene} (h : ordinalsContiguous scenes) :
    ordinalsContiguous (addScene scenes) := by
  intro i s hs
  by_cases hlt : i < scenes.length
  · rw [addScene, List.getElem?_append_left hlt] at hs
    exact h i s hs
  · have hge : scenes.length ≤ i := Nat.le_of_not_lt hlt
    rw [addScene, List.getElem?_append_right hge] at hs
    cases hd : i - scenes.length with
    | zero =>
        rw [hd] at hs
        simp only [List.getElem?_cons_zero, Option.some.injEq] at hs
        rw [← hs]
        show scenes.length = i
        omega
    | succ n =>
        rw [hd] at hs
        simp at hs

theorem foldl_applyOp_contiguous :
    ∀ (ops : List EditorOp) (scenes : List EditorScene), ordinalsContiguous scenes →
      ordinalsContiguous (List.foldl applyOp scenes ops) := by
  intro ops
  induction ops with
  | nil => intro scenes h; exact h
  | cons op ops ih =>
      intro scenes h
      rw [List.foldl_cons]
      apply ih
      cases op with
      | add => exact addScene_contiguous h
      | remove index => exact removeScene_contiguous scenes index

/-- Claim C6: scene ordinals stay unique and contiguous — any sequence of
add-scene and remove-scene operations, run from a scene list already
satisfying `scene_id = position` (in particular from the initial empty
template), produces a scene list in which every scene stores its list position
as `scene_id`. -/
theorem editor_scene_ids_contiguous :
    (∀ (scenes : List EditorScene), ordinalsContiguous scenes →
        ∀ (ops : List EditorOp), ordinalsContiguous (List.foldl applyOp scenes ops))
  ∧ (∀ (ops : List EditorOp), ordinalsContiguous (runOps ops)) := by
  constructor
  · intro scenes h ops
    exact foldl_applyOp_contiguous ops scenes h
  · intro ops
    exact foldl_applyOp_contiguous ops [] (fun i s h => by simp at h)

/-- Concrete instance of the claim C6 theorem: two additions followed by a
removal at position 0 leave contiguous ordinals. -/
theorem editor_scene_ids_contiguous_witness :
    ordinalsContiguous (List.foldl applyOp [] [EditorOp.add, EditorOp.add, EditorOp.remove 0]) :=
  editor_scene_ids_contiguous.1 [] (fun i s h => by simp at h)
    [EditorOp.add, EditorOp.add, EditorOp.remove 0]

/-- JavaScript string-valued `a || b`: the left operand unless it is absent
(`undefined`) or the empty string (falsy). -/
def jsOrStr : Option String → String → String
  | some s, dflt => if s = "" then dflt else s
  | none, dflt => dflt

/-- The optimizer result object consumed by `applyOptimization`: the backend
may use the plain or the `optimized_` key for either field, or omit them. -/
structure OptimizedData where
  action : Option String
  optimized_action : Option String
  emotion : Option String
  optimized_emotion : Option String
deriving DecidableEq, Repr

/-- The per-scene update inside `applyOptimization` (FrameUploader.jsx): the
scene is copied with `prompt` and `emotion` replaced by the first truthy value
among the optimizer keys and the prior field. -/
def optimizeScene (d : OptimizedData) (s : EditorScene) : EditorScene :=
  { s with prompt := jsOrStr d.action (jsOrStr d.optimized_action s.prompt),
           emotion := jsOrStr d.emotion (jsOrStr d.optimized_emotion s.emotion) }

/-- Embeds `applyOptimization` of `TemplateEditor` (FrameUploader.jsx): the
scene list is copied and only the entry at the preview's scene index is
replaced by its optimized copy. -/
def applyOptimization (scenes : List EditorScene) (sceneIndex : Nat)
    (d : OptimizedData) : List EditorScene :=
  match scenes[sceneIndex]? with
  | some s => scenes.set sceneIndex (optimizeScene d s)
  | none => scenes

theorem jsOrStr_falsy {o : Option String} (h : o = none ∨ o = some "") (dflt : String) :
    jsOrStr o dflt = dflt := by
  rcases h with h | h <;> subst h <;> simp [jsOrStr]

theorem jsOrStr_ne_empty {dflt : String} (h : dflt ≠ "") (o : Option String) :
    jsOrStr o dflt ≠ "" := by
  cases o with
  | none => exact h
  | some s =>
      simp only [jsOrStr]
      by_cases hs : s = ""
      · rw [if_pos hs]
        exact h
      · rw [if_neg hs]
        exact hs

theorem applyOptimization_getElem? (scenes : List EditorScene) (sceneIndex : Nat)
    (d : OptimizedData) (j : Nat) :
    (applyOptimization scenes sceneIndex d)[j]?
      = if j = sceneIndex then (scenes[j]?).map (optimizeScene d) else scenes[j]? := by
  by_cases hj : j = sceneIndex
  · subst hj
    rw [if_pos rfl]
    cases hs : scenes[j]? with
    | none => simp [applyOptimization, hs]
    | some s =>
        have hlt : j < scenes.length := by
          by_contra hc
          rw [List.getElem?_eq_none (Nat.le_of_not_lt hc)] at hs
          cases hs
        simp [applyOptimization, hs, List.getElem?_set_self hlt]
  · rw [if_neg hj]
    cases hs : scenes[sceneIndex]? with
    | none => simp [applyOptimization, hs]
    | some s =>
        simp [applyOptimization, hs, List.getElem?_set_ne (Ne.symm hj)]

theorem applyOptimization_map_eq {β : Type} (F : EditorScene → β)
    (hF : ∀ (d : OptimizedData) (s : EditorScene), F (optimizeScene d s) = F s)
    (scenes : List EditorScene) (i : Nat) (d : OptimizedData) (j : Nat) :
    ((applyOptimization scenes i d)[j]?).map F = (scenes[j]?).map F := by
  rw [applyOptimization_getElem?]
  by_cases hj : j = i
  · rw [if_pos hj]
    cases scenes[j]? with
    | none => rfl
    | some s => simp [hF]
  · rw [if_neg hj]

/-- Claim C9: accepting an optimization preview modifies at most the prompt
and emotion of the single scene at the preview's index — the list keeps its
length, every other position is unchanged, and at every position the
dialogue, name, duration, camera movement, lighting and ordinal are those of
the original scene (in particular the previewed optimized dialogue is never
written back). -/
theorem applyOptimization_frame :
    ∀ (scenes : List EditorScene) (sceneIndex : Nat) (d : OptimizedData) (j : Nat),
      (applyOptimization scenes sceneIndex d).length = scenes.length
    ∧ (j ≠ sceneIndex → (applyOptimization scenes sceneIndex d)[j]? = scenes[j]?)
    ∧ ((applyOptimization scenes sceneIndex d)[j]?).map EditorScene.dialogue
        = (scenes[j]?).map EditorScene.dialogue
    ∧ ((applyOptimization scenes sceneIndex d)[j]?).map EditorScene.name
        = (scenes[j]?).map EditorScene.name
    ∧ ((applyOptimization scenes sceneIndex d)[j]?).map EditorScene.duration
        = (scenes[j]?).map EditorScene.duration
    ∧ ((applyOptimization scenes sceneIndex d)[j]?).map EditorScene.camera_movement
        = (scenes[j]?).map EditorScene.camera_movement
    ∧ ((applyOptimization scenes sceneIndex d)[j]?).map EditorScene.lighting
        = (scenes[j]?).map EditorScene.lighting
    ∧ ((applyOptimization scenes sceneIndex d)[j]?).map EditorScene.scene_id
        = (scenes[j]?).map EditorScene.scene_id := by
  intro scenes i d j
  refine ⟨?_, ?_,
    applyOptimization_map_eq EditorScene.dialogue (fun _ _ => rfl) scenes i d j,
    applyOptimization_map_eq EditorScene.name (fun _ _ => rfl) scenes i d j,
    applyOptimization_map_eq EditorScene.duration (fun _ _ => rfl) scenes i d j,
    applyOptimization_map_eq EditorScene.camera_movement (fun _ _ => rfl) scenes i d j,
    applyOptimization_map_eq EditorScene.lighting (fun _ _ => rfl) scenes i d j,
    applyOptimization_map_eq EditorScene.scene_id (fun _ _ => rfl) scenes i d j⟩
  · unfold applyOptimization
    cases hs : scenes[i]? <;> simp
  · intro hj
    rw [applyOptimization_getElem?, if_neg hj]

/-- A concrete scene used by the closed witness instances below. -/
def sampleScene : EditorScene :=
  { scene_id := 0, name := "Scene 1", duration := 15 / 2, prompt := "hero shot",
    dialogue := some "hola", emotion := "joy", voice_gender := none,
    camera_movement := "static", lighting := "natural", reference_images := [] }

/-- Concrete instance of the claim C9 theorem: optimizing scene 0 of a
two-scene template leaves scene 1 untouched. -/
theorem applyOptimization_frame_witness :
    (applyOptimization [sampleScene, { sampleScene with scene_id := 1 }] 0
        { action := some "new action", optimized_action := none,
          emotion := none, optimized_emotion := none })[1]?
      = some { sampleScene with scene_id := 1 } :=
  (applyOptimization_frame [sampleScene, { sampleScene with scene_id := 1 }] 0
      { action := some "new action", optimized_action := none,
        emotion := none, optimized_emotion := none } 1).2.1 (by decide)

/-- Claim C10: accepting an optimization never erases existing scene text —
when both action keys (respectively both emotion keys) are absent or empty the
prompt (respectively emotion) of every scene is retained, and a scene whose
prompt was nonempty never ends up with an empty prompt. -/
theorem applyOptimization_preserves_text :
    ∀ (scenes : List EditorScene) (sceneIndex : Nat) (d : OptimizedData) (j : Nat),
      ((d.action = none ∨ d.action = some "") →
       (d.optimized_action = none ∨ d.optimized_action = some "") →
        ((applyOptimization scenes sceneIndex d)[j]?).map EditorScene.prompt
          = (scenes[j]?).map EditorScene.prompt)
    ∧ ((d.emotion = none ∨ d.emotion = some "") →
       (d.optimized_emotion = none ∨ d.optimized_emotion = some "") →
        ((applyOptimization scenes sceneIndex d)[j]?).map EditorScene.emotion
          = (scenes[j]?).map EditorScene.emotion)
    ∧ (∀ s : EditorScene, scenes[j]? = some s → s.prompt ≠ "" →
        ∀ t : EditorScene, (applyOptimization scenes sceneIndex d)[j]? = some t →
          t.prompt ≠ "") := by
  intro scenes i d j
  refine ⟨?_, ?_, ?_⟩
  · intro h1 h2
    rw [applyOptimization_getElem?]
    by_cases hj : j = i
    · rw [if_pos hj]
      cases scenes[j]? with
      | none => rfl
      | some s => simp [optimizeScene, jsOrStr_falsy h1, jsOrStr_falsy h2]
    · rw [if_neg hj]
  · intro h1 h2
    rw [applyOptimization_getElem?]
    by_cases hj : j = i
    · rw [if_pos hj]
      cases scenes[j]? with
      | none => rfl
      | some s => simp [optimizeScene, jsOrStr_falsy h1, jsOrStr_falsy h2]
    · rw [if_neg hj]
  · intro s hs hpne t ht
    rw [applyOptimization_getElem?] at ht
    by_cases hj : j = i
    · rw [if_pos hj, hs] at ht
      have ht2 : optimizeScene d s = t := by simpa using ht
      rw [← ht2]
      exact jsOrStr_ne_empty (jsOrStr_ne_empty hpne d.optimized_action) d.action
    · rw [if_neg hj, hs] at ht
      cases ht
      exact hpne

/-- Concrete instance of the claim C10 theorem: an optimizer result with empty
and absent action keys leaves the prompt of the target scene unchanged. -/
theorem applyOptimization_preserves_text_witness :
    ((applyOptimization [sampleScene] 0
        { action := some "", optimized_action := none,
          emotion := some "calm", optimized_emotion := none })[0]?).map EditorScene.prompt
      = some "hero shot" :=
  (applyOptimization_preserves_text [sampleScene] 0
      { action := some "", optimized_action := none,
        emotion := some "calm", optimized_emotion := none } 0).1
    (Or.inr rfl) (Or.inl rfl)

/-- The optimization request body assembled by `handleOptimize`
(FrameUploader.jsx) for `POST /api/prompts/optimize`. -/
structure OptimizationRequest where
  action : String
  emotion : String
  dialogue : String
  voice_gender : String
  product_tone : String
  scene_type : String
  image_context : Option FrameAnalysis
deriving DecidableEq, Repr

/-- Embeds the request-building part of `handleOptimize` in `TemplateEditor`
(FrameUploader.jsx): the scene's raw fields with the handler's defaults, and
the captured image analysis of scene 0 attached as `image_context` only when
the optimized scene is scene 0 and such an analysis exists. -/
def buildOptimizationRequest (sceneIndex : Nat) (scene : EditorScene)
    (brandMood : String) (imageAnalysis : Nat → Option FrameAnalysis) : OptimizationRequest :=
  let base : OptimizationRequest :=
    { action := scene.prompt,
      emotion := if scene.emotion = "" then "neutral" else scene.emotion,
      dialogue := jsOrStr scene.dialogue "",
      voice_gender := jsOrStr scene.voice_gender "female",
      product_tone := if brandMood = "" then "professional" else brandMood,
      scene_type := "general",
      image_context := none }
  if sceneIndex = 0 then
    match imageAnalysis 0 with
    | some a => { base with image_context := some a }
    | none => base
  else base

/-- Claim C5: the optimization request carries image-analysis context only for
scene 0 — for every scene of index at least 1 the request has no image
context, regardless of the captured analyses, and for scene 0 the captured
scene-0 analysis (when present) is attached. -/
theorem buildOptimizationRequest_image_context :
    (∀ (sceneIndex : Nat) (scene : EditorScene) (brandMood : String)
        (imageAnalysis : Nat → Option FrameAnalysis), 1 ≤ sceneIndex →
        (buildOptimizationRequest sceneIndex scene brandMood imageAnalysis).image_context = none)
  ∧ (∀ (scene : EditorScene) (brandMood : String)
        (imageAnalysis : Nat → Option FrameAnalysis) (a : FrameAnalysis),
        imageAnalysis 0 = some a →
        (buildOptimizationRequest 0 scene brandMood imageAnalysis).image_context = some a) := by
  constructor
  · intro sceneIndex scene brandMood ia h
    have hne : sceneIndex ≠ 0 := by omega
    simp [buildOptimizationRequest, hne]
  · intro scene brandMood ia a h
    simp [buildOptimizationRequest, h]

/-- Concrete instance of the claim C5 theorem: the request for scene 1 has no
image context. -/
theorem buildOptimizationRequest_image_context_witness :
    (buildOptimizationRequest 1 sampleScene "" (fun _ => none)).image_context = none :=
  buildOptimizationRequest_image_context.1 1 sampleScene "" (fun _ => none) (by decide)

/-- Embeds the validation guard of `handleSubmit` in `TemplateEditor`
(FrameUploader.jsx): the result is whether `createProject` is invoked; a
template with no name or zero scenes is rejected with an alert. -/
def handleSubmitAccepts (name : String) (scenes : List EditorScene) : Bool :=
  if name = "" ∨ scenes.length = 0 then false else true

/-- Embeds the action rendering of `Dashboard` (Dashboard.jsx): the Start
Production button is rendered exactly for projects whose status string is
`draft`. -/
def showsStartProduction (status : String) : Bool :=
  status == "draft"

/-- Project status values of the data model. -/
inductive ProjectStatus
  | draft
  | in_progress
  | completed
  | failed
deriving DecidableEq, Repr

/-- A project as seen by the production precondition: its status and its
scene list. -/
structure Project where
  status : ProjectStatus
  scenes : List EditorScene
deriving DecidableEq, Repr

/-- Error taxonomy entry raised by the production precondition. -/
inductive ProduceError
  | invalidProjectState
deriving DecidableEq, Repr

/-- Modelled from the spec: the backend handler behind `POST
/api/production/start` is not among the frontend sources; per the spec,
`produce` requires `project.status == DRAFT` and at least one scene, and
otherwise fails with `InvalidProjectState`. -/
def producePrecheck (p : Project) : Except ProduceError Unit :=
  if p.status = ProjectStatus.draft ∧ p.scenes ≠ [] then Except.ok ()
  else Except.error ProduceError.invalidProjectState

/-- Claim C7: production is only initiated on DRAFT projects with at least
one scene — submission is rejected when the template has no name or zero
scenes, the start-production action is offered exactly for draft-status
projects, and starting production on a project violating the precondition
fails with `InvalidProjectState`. -/
theorem production_requires_draft_with_scene :
    (∀ (name : String) (scenes : List EditorScene),
        name = "" ∨ scenes.length = 0 → handleSubmitAccepts name scenes = false)
  ∧ (∀ status : String, showsStartProduction status = true ↔ status = "draft")
  ∧ (∀ p : Project, ¬(p.status = ProjectStatus.draft ∧ p.scenes ≠ []) →
        producePrecheck p = Except.error ProduceError.invalidProjectState) := by
  refine ⟨?_, ?_, ?_⟩
  · intro name scenes h
    unfold handleSubmitAccepts
    rw [if_pos h]
  · intro status
    simp [showsStartProduction]
  · intro p h
    unfold producePrecheck
    rw [if_neg h]

/-- Concrete instance of the claim C7 theorem: an unnamed empty template is
rejected on submission. -/
theorem production_requires_draft_with_scene_witness :
    handleSubmitAccepts "" [] = false :=
  production_requires_draft_with_scene.1 "" [] (Or.inl rfl)

/-- The parsed body of the analyze-frame response (`result` in the handler). -/
structure AnalysisResponse where
  ok : Bool
  analysis : Option FrameAnalysis
  error : Option String
deriving DecidableEq, Repr

/-- Observable outcome of the analyze-frame fetch: a parsed response, or a
thrown network or parse error. -/
inductive AnalyzeFetchOutcome
  | response (r : AnalysisResponse)
  | thrown (msg : String)
deriving DecidableEq, Repr

/-- The component-state effects of one `analyzeFrame` run: the error message
set, the analysis stored in the uploader, and the payload with which the
`onAnalysisComplete` callback is invoked (`none` when it is not invoked). -/
structure AnalyzeEffects where
  errorMsg : Option String
  storedAnalysis : Option FrameAnalysis
  callback : Option FrameAnalysis
deriving DecidableEq, Repr

/-- Embeds `analyzeFrame` of `FrameUploader` (FrameUploader.jsx): on an `ok`
response the analysis is stored and the callback invoked; on a non-`ok`
response or a thrown error only the error message is set. -/
def analyzeFrame : AnalyzeFetchOutcome → AnalyzeEffects
  | AnalyzeFetchOutcome.response r =>
      if r.ok then
        { errorMsg := none, storedAnalysis := r.analysis, callback := r.analysis }
      else
        { errorMsg := some (r.error.getD "Analysis failed"),
          storedAnalysis := none, callback := none }
  | AnalyzeFetchOutcome.thrown msg =>
      { errorMsg := some ("Error: " ++ msg), storedAnalysis := none, callback := none }

/-- Whether an analyze-frame fetch outcome is a failure: a response with
`ok = false`, or a thrown error. -/
def analysisFailed : AnalyzeFetchOutcome → Bool
  | AnalyzeFetchOutcome.response r => !r.ok
  | AnalyzeFetchOutcome.thrown _ => true

/-- The scene-related editor state that only the `onAnalysisComplete`
callback can touch: the scene's prompt and the analysis stored for the
scene in the `imageAnalysis` map. -/
structure SceneSlot where
  prompt : String
  storedImageAnalysis : Option FrameAnalysis
deriving DecidableEq, Repr

/-- The `TemplateEditor` state transition driven by the `onAnalysisComplete`
callback: when the callback is not invoked the slot is untouched; when it is,
the analysis is stored and the prompt updated per the routing rules. -/
def editorOnAnalysis (index : Nat) (slot : SceneSlot) : Option FrameAnalysis → SceneSlot
  | none => slot
  | some a =>
      { prompt := onAnalysisCompletePrompt index a slot.prompt,
        storedImageAnalysis := some a }

/-- Claim C8: frame-analysis failure is atomic with respect to the scene —
for every failing fetch outcome (error response or thrown request) an error
message is surfaced, the analysis-complete callback is not invoked, and the
scene's prompt and stored analysis are unchanged. -/
theorem analyzeFrame_failure_atomic :
    ∀ (outcome : AnalyzeFetchOutcome), analysisFailed outcome = true →
      (analyzeFrame outcome).callback = none
    ∧ (analyzeFrame outcome).errorMsg.isSome = true
    ∧ ∀ (index : Nat) (slot : SceneSlot),
        editorOnAnalysis index slot (analyzeFrame outcome).callback = slot := by
  intro outcome h
  cases outcome with
  | response r =>
      have hok : r.ok = false := by
        simpa [analysisFailed] using h
      refine ⟨?_, ?_, ?_⟩ <;> simp [analyzeFrame, hok, editorOnAnalysis]
  | thrown msg =>
      refine ⟨rfl, rfl, fun index slot => rfl⟩

/-- Concrete instance of the claim C8 theorem: a thrown fetch does not invoke
the analysis-complete callback. -/
theorem analyzeFrame_failure_atomic_witness :
    (analyzeFrame (AnalyzeFetchOutcome.thrown "boom")).callback = none :=
  (analyzeFrame_failure_atomic (AnalyzeFetchOutcome.thrown "boom") rfl).1

end PromptComercial
